import Mathlib

/-!
# Verification of the HViT_classification tensor algebra

Shallow embedding of the patch/unpatch tensor algebra and of the layer
constructors of the `HViT_classification` repository.

Tensors are embedded as index functions: a tensor of rank `k` is a function
`Nat → ⋯ → Nat → α` taking `k` indices, together with its dimensions kept as
explicit `Nat` parameters of the definitions and theorems.  Row-major (C
order) layout is assumed throughout, matching both frameworks used in the
repository, so `reshape` is index re-linearisation, `transpose` a permutation
of arguments, and `split`/`stack`/`concat`/`unstack` are affine index maps.

Python exceptions raised by the layer code (assert statements, attribute
lookups, operand type errors, unbound locals) are embedded with
`Except PyErr`; code with no raising operation is embedded as a total
function.

* namespace `hvit` : src/hvit/tf/functions.py
* namespace `mtf`  : src/model/tf/functions.py and src/model/tf/ViT_model.py
* namespace `pt`   : src/model/pytorch/ViT_model.py
-/

/-- Kinds of Python exceptions raised by the repository's code, with their
message. -/
inductive PyErr where
  | assertionError : String → PyErr
  | typeError : String → PyErr
  | attributeError : String → PyErr
  | indexError : String → PyErr
  | unboundLocalError : String → PyErr
  | zeroDivisionError : String → PyErr
  | valueError : String → PyErr
deriving DecidableEq, Repr

/-- `true` iff the computation returned normally (no exception). -/
def okb {α : Type} : Except PyErr α → Bool
  | Except.ok _ => true
  | Except.error _ => false

/-- `true` iff the computation raised an `AssertionError`. -/
def isAssertionError {α : Type} : Except PyErr α → Bool
  | Except.error (PyErr.assertionError _) => true
  | _ => false

namespace hvit

variable {α : Type}

/-- `tf.image.extract_patches` with square `patch_size = p`, strides `p`,
rates 1 and VALID padding, applied in src/hvit/tf/functions.py `patches`
(lines 10-14) to a channels-last image tensor of shape `(B, h, w, c)`.
The result has shape `(B, h/p, w/p, p*p*c)`; the last axis stores one patch
flattened row-major over (row in patch, column in patch, channel). -/
def extract_patches (p c : Nat) (X : Nat → Nat → Nat → Nat → α) :
    Nat → Nat → Nat → Nat → α :=
  fun b gi gj d => X b (gi * p + d / (p * c)) (gj * p + d / c % p) (d % c)

/-- `tf.reshape(_, (-1, num_patches, depth))` of a `(B, gh, gw, depth)` tensor
(src/hvit/tf/functions.py line 15): the two grid axes are merged row-major,
`gw` being the extent of the second grid axis. -/
def reshape_to_seq (gw : Nat) (Y : Nat → Nat → Nat → Nat → α) :
    Nat → Nat → Nat → α :=
  fun b n d => Y b (n / gw) (n % gw) d

/-- src/hvit/tf/functions.py lines 6-15, `patches`: extract patches of size
`p` from a `(B, s, s, c)` channels-last image and flatten the patch grid to a
sequence; `num_patches = (s/p)^2` and the grid has row extent `s/p`. -/
def patches (s p c : Nat) (X : Nat → Nat → Nat → Nat → α) :
    Nat → Nat → Nat → α :=
  reshape_to_seq (s / p) (extract_patches p c X)

/-- src/hvit/tf/functions.py lines 17-23, `unflatten` (batched branch):
`tf.reshape(flattened, (-1, n, q, q, num_channels))` where
`q = int(np.sqrt(pdim // num_channels))` and `pdim` is the input's last
dimension.  Row-major, so index `(b, n, u, v, ch)` reads flat position
`(u * q + v) * c + ch` of patch `n`. -/
def unflatten (pdim c : Nat) (f : Nat → Nat → Nat → α) :
    Nat → Nat → Nat → Nat → Nat → α :=
  fun b n u v ch => f b n ((u * Nat.sqrt (pdim / c) + v) * c + ch)

/-- `tf.stack(tf.split(x, elem, axis=1), axis=1)` on a `(B, N, h, w, ch)`
tensor (src/hvit/tf/functions.py line 32): axis 1 is split into `elem` chunks
of length `N/elem = elem` which are restacked, giving
`(B, elem, elem, h, w, ch)`. -/
def split_stack_axis1 (elem : Nat)
    (x : Nat → Nat → Nat → Nat → Nat → α) :
    Nat → Nat → Nat → Nat → Nat → Nat → α :=
  fun b a1 a2 i j ch => x b (a1 * elem + a2) i j ch

/-- `tf.concat(tf.unstack(x, axis=2), axis=-2)` on a
`(B, elem, elem, h, w, ch)` tensor (src/hvit/tf/functions.py line 33): the
second grid axis is unstacked and concatenated along the width axis, giving
`(B, elem, h, w*elem, ch)`; width position `jj` comes from chunk `jj / w`,
column `jj % w`. -/
def concat_unstack2 (w : Nat)
    (x : Nat → Nat → Nat → Nat → Nat → Nat → α) :
    Nat → Nat → Nat → Nat → Nat → α :=
  fun b a1 i jj ch => x b a1 (jj / w) i (jj % w) ch

/-- `tf.concat(tf.unstack(x, axis=1), axis=-3)` on a
`(B, elem, h, W, ch)` tensor (src/hvit/tf/functions.py line 34): the first
grid axis is unstacked and concatenated along the height axis, giving
`(B, h*elem, W, ch)`. -/
def concat_unstack1 (h : Nat)
    (x : Nat → Nat → Nat → Nat → Nat → α) :
    Nat → Nat → Nat → Nat → α :=
  fun b ii jj ch => x b (ii / h) (ii % h) jj ch

/-- src/hvit/tf/functions.py lines 25-35, `unpatch`, on a rank-5 input of
shape `(B, N, h, w, ch)` (so the `unflatten` branch of line 26 is not taken):
`elem_per_axis = int(np.sqrt(N))`; the patch sequence is reassembled into an
image and reshaped to `(B, 1, h*elem, w*elem, ch)` (the final `tf.reshape`
only inserts the singleton axis).  The assertion `ch == num_channels` on
line 30 compares the shape, which holds by construction at every use below. -/
def unpatch (N h w c : Nat)
    (x : Nat → Nat → Nat → Nat → Nat → α) :
    Nat → Nat → Nat → Nat → Nat → α :=
  fun b _z ii jj ch =>
    concat_unstack1 h (concat_unstack2 w (split_stack_axis1 (Nat.sqrt N) x))
      b ii jj ch

end hvit

/-! ## Shape-level semantics of the TF layer calls (for C2)

Output shapes of the framework primitives used by `PatchEncoder.call`,
as functions on dimension lists.  `none` models a framework shape error. -/

namespace hvit

/-- Output shape of `tf.image.extract_patches` (square size/stride `p`,
VALID padding) on a rank-4 input `(b, h, w, c)`. -/
def extract_patches_shape (p : Nat) : List Nat → Option (List Nat)
  | [b, h, w, c] => some [b, h / p, w / p, p * p * c]
  | _ => none

/-- `tf.reshape(x, (-1, n, d))`: the leading dimension is inferred from the
total element count; fails when `n * d` is zero or does not divide the
total. -/
def reshape_infer2 (sh : List Nat) (n d : Nat) : Option (List Nat) :=
  if n * d = 0 then none
  else if sh.prod % (n * d) = 0 then some [sh.prod / (n * d), n, d]
  else none

/-- Shape of src/hvit/tf/functions.py `patches` (lines 6-15):
`num_patches = (shape[1] // p) ** 2` is computed from the input height, then
`extract_patches` runs and the result is reshaped to
`(-1, num_patches, last_dim)`. -/
def patches_shape (p : Nat) : List Nat → Option (List Nat)
  | [b, h, w, c] =>
      match extract_patches_shape p [b, h, w, c] with
      | some [b', gh, gw, dep] => reshape_infer2 [b', gh, gw, dep] ((h / p) ^ 2) dep
      | _ => none
  | _ => none

/-- Output shape of `tf.keras.layers.Dense(units)`: the last dimension is
replaced by `units`. -/
def dense_shape (units : Nat) (sh : List Nat) : List Nat :=
  sh.dropLast ++ [units]

/-- Output shape of `tf.keras.layers.Embedding(input_dim, output_dim)`:
`output_dim` is appended to the index tensor's shape. -/
def embedding_shape (output_dim : Nat) (sh : List Nat) : List Nat :=
  sh ++ [output_dim]

/-- One dimension of the numpy/TF broadcasting rule: equal extents, or one of
them is 1. -/
def broadcastDim (a b : Nat) : Option Nat :=
  if a = b then some a
  else if a = 1 then some b
  else if b = 1 then some a
  else none

/-- Broadcasting on reversed (trailing-first) dimension lists; a missing
leading dimension behaves like extent 1. -/
def broadcastRev : List Nat → List Nat → Option (List Nat)
  | [], t => some t
  | s, [] => some s
  | a :: s, b :: t =>
      match broadcastDim a b, broadcastRev s t with
      | some d, some r => some (d :: r)
      | _, _ => none

/-- Shape of a broadcast binary operation (the `+` in `PatchEncoder.call`). -/
def broadcast_shapes (s t : List Nat) : Option (List Nat) :=
  (broadcastRev s.reverse t.reverse).map List.reverse

/-- src/hvit/tf/functions.py lines 155-171, `PatchEncoder.__init__`:
`num_patches = (img_size // patch_size) ** 2` and `projection_dim` defaults
to `num_channels * patch_size ** 2` when not supplied. -/
structure PatchEncoder where
  img_size : Nat
  patch_size : Nat
  num_channels : Nat
  num_patches : Nat
  projection_dim : Nat

/-- Constructor of `PatchEncoder` (lines 156-171). -/
def PatchEncoder.init (img_size patch_size num_channels : Nat)
    (projection_dim : Option Nat) : PatchEncoder :=
  { img_size := img_size
    patch_size := patch_size
    num_channels := num_channels
    num_patches := (img_size / patch_size) ^ 2
    projection_dim := projection_dim.getD (num_channels * patch_size ^ 2) }

/-- Shape semantics of `PatchEncoder.call` (lines 186-190): `patches`, then
`Dense(projection_dim)` on the patch sequence, plus
`Embedding(num_patches, projection_dim)` of `tf.range(num_patches)`,
broadcast-added. -/
def PatchEncoder.call_shape (pe : PatchEncoder) (sh : List Nat) :
    Option (List Nat) :=
  match patches_shape pe.patch_size sh with
  | none => none
  | some psh =>
      broadcast_shapes (dense_shape pe.projection_dim psh)
        (embedding_shape pe.projection_dim [pe.num_patches])

end hvit

/-! ## Resampling constructor validation (for C6) -/

/-- `int(np.sqrt(n)) == np.sqrt(n)` for a natural number `n`: the square root
is integral exactly when `n` is a perfect square. -/
def is_perfect_square (n : Nat) : Bool :=
  Nat.sqrt n * Nat.sqrt n == n

namespace hvit

/-- src/hvit/tf/functions.py lines 87-126, the raising behaviour of
`Resampling.__init__`, in program order: the `resampling_type` membership
assertion (line 97); the `num_patches` comprehension (line 101), which
raises `ZeroDivisionError` when a `patch_size` entry is 0; the computation
of `pool_size = num_patches[0] // num_patches[1]` (line 102), which raises
`IndexError` when `patch_size` has fewer than two entries and
`ZeroDivisionError` when `num_patches[1] = (img_size//patch_size[1])**2`
is 0 (i.e. `patch_size[1] > img_size`); then the branch-specific statements —
for `max` the `projection_dim is not None` assertion (line 107) followed by
the `proj // num_channels` of line 109 (`ZeroDivisionError` when
`num_channels = 0`); for `conv` the assertion of line 120, whose
`projection_dim // num_channels` operand raises `ZeroDivisionError` when
`num_channels = 0` before the perfect-square test, and, when
`projection_dim` is `None`, the `proj // num_channels` of line 122 with the
same division.  The remaining statements only build layers and raise
nothing. -/
def Resampling_init_check (img_size : Nat) (patch_size : List Nat)
    (num_channels : Nat) (projection_dim : Option Nat)
    (resampling_type : String) : Except PyErr Unit :=
  if resampling_type ∉ ["max", "standard", "conv"] then
    Except.error (PyErr.assertionError
      "Resampling type must be either max or standard.")
  else if 0 ∈ patch_size then
    Except.error (PyErr.zeroDivisionError "integer division or modulo by zero")
  else if patch_size.length < 2 then
    Except.error (PyErr.indexError "list index out of range")
  else if (img_size / patch_size.getD 1 0) ^ 2 = 0 then
    Except.error (PyErr.zeroDivisionError "integer division or modulo by zero")
  else if resampling_type = "max" then
    match projection_dim with
    | none => Except.error (PyErr.assertionError
        "Projection_dim must be specified when performing max pooling type.")
    | some _ =>
        if num_channels = 0 then
          Except.error (PyErr.zeroDivisionError
            "integer division or modulo by zero")
        else Except.ok ()
  else if resampling_type = "conv" then
    if num_channels = 0 then
      Except.error (PyErr.zeroDivisionError
        "integer division or modulo by zero")
    else
      match projection_dim with
      | none => Except.ok ()
      | some pd =>
          if is_perfect_square (pd / num_channels) then Except.ok ()
          else Except.error (PyErr.assertionError
            "If provided, projection dim has to be a perfect square (per channel) with resampling_type conv.")
  else Except.ok ()

end hvit

/-! ## The split/stack patch implementation (src/model/tf) and the
unfold-based one (src/model/pytorch), for C3 and C8 -/

namespace mtf

variable {α : Type}

/-- `tf.stack(tf.split(X, h//p, axis=0), axis=0)` on an `(h, w)` matrix
(src/model/tf/ViT_model.py line 12 and src/model/tf/functions.py line 12):
rows are split into `h/p` chunks of height `p`. -/
def split_stack_rows (p : Nat) (M : Nat → Nat → α) : Nat → Nat → Nat → α :=
  fun a i j => M (a * p + i) j

/-- `tf.stack(tf.split(y, w//p, axis=1), axis=0)` on a `(p, w)` chunk
(line 13): columns are split into `w/p` chunks of width `p`. -/
def split_stack_cols (p : Nat) (M : Nat → Nat → α) : Nat → Nat → Nat → α :=
  fun bk i j => M i (bk * p + j)

/-- `patches_2d` (src/model/tf/ViT_model.py lines 10-15, identically
src/model/tf/functions.py lines 10-15): row split, per-chunk column split,
then `tf.reshape(_, [-1, p, p])`, which merges the `(h/p, w/p)` grid
row-major; `wp = w / p` is the column-chunk count. -/
def patches_2d (p wp : Nat) (M : Nat → Nat → α) : Nat → Nat → Nat → α :=
  fun n i j =>
    split_stack_cols p (fun i' j' => split_stack_rows p M (n / wp) i' j')
      (n % wp) i j

/-- Body of src/model/tf/ViT_model.py `patch` / src/model/tf/functions.py
`patches` (lines 17-27) after the assertions: transpose the `(B, h, w, c)`
channels-last input to `(B, c, h, w)`, map `patches_2d` over batch and
channel, and transpose the result to `(B, n, p, p, c)`. -/
def patch_body (p wp : Nat) (X : Nat → Nat → Nat → Nat → α) :
    Nat → Nat → Nat → Nat → Nat → α :=
  fun b n i j ch => patches_2d p wp (fun y z => X b y z ch) n i j

/-- src/model/tf/ViT_model.py lines 6-27 `patch`, identical to
src/model/tf/functions.py lines 6-27 `patches`: asserts that `p` divides the
height (line 20) and the width (line 21), in that order, then builds the
patch grid.  Input is rank 4 (the rank-5 squeeze branch is not taken). -/
def patch (h w p : Nat) (X : Nat → Nat → Nat → Nat → α) :
    Except PyErr (Nat → Nat → Nat → Nat → Nat → α) :=
  if h % p ≠ 0 then
    Except.error (PyErr.assertionError "Patch size must divide images height")
  else if w % p ≠ 0 then
    Except.error (PyErr.assertionError "Patch size must divide images width")
  else Except.ok (patch_body p (w / p) X)

end mtf

namespace mtf

/-- Output shape of src/model/tf/functions.py `patches` (lines 6-27): the
split/stack implementation keeps each patch as a `(p, p)` block, so a
`(b, h, w, c)` channels-last input yields the RANK-5 shape
`(b, (h/p)*(w/p), p, p, c)`; `none` models the divisibility assertion
failures of lines 20-21. -/
def patches_shape (p : Nat) : List Nat → Option (List Nat)
  | [b, h, w, c] =>
      if h % p ≠ 0 then none
      else if w % p ≠ 0 then none
      else some [b, h / p * (w / p), p, p, c]
  | _ => none

/-- Shape semantics of src/model/tf/functions.py `PatchEncoder.call`
(lines 115-119); the constructor (lines 98-113) takes no `projection_dim`
parameter and always sets `num_patches = (img_size//patch_size)**2` and
`projection_dim = num_channels*patch_size**2`.  The call applies
`Dense(projection_dim)` to the rank-5 output of `patches` and
broadcast-adds `Embedding(num_patches, projection_dim)` of
`tf.range(num_patches)`. -/
def PatchEncoder_call_shape (img_size patch_size num_channels : Nat)
    (sh : List Nat) : Option (List Nat) :=
  match patches_shape patch_size sh with
  | none => none
  | some psh =>
      hvit.broadcast_shapes
        (hvit.dense_shape (num_channels * patch_size ^ 2) psh)
        (hvit.embedding_shape (num_channels * patch_size ^ 2)
          [(img_size / patch_size) ^ 2])

end mtf

namespace pt

variable {α : Type}

/-- `X.unfold(2, p, p)` on a `(B, c, h, w)` tensor
(src/model/pytorch/ViT_model.py line 16): windows of length `p`, stride `p`,
along the height axis; the window offset becomes the new last axis, giving
`(B, c, h/p, w, p)`. -/
def unfold_h (p : Nat) (X : Nat → Nat → Nat → Nat → α) :
    Nat → Nat → Nat → Nat → Nat → α :=
  fun b ch a j i => X b ch (a * p + i) j

/-- `.unfold(3, p, p)` on the `(B, c, h/p, w, p)` tensor (line 16): same
along the width axis, giving `(B, c, h/p, w/p, p, p)`. -/
def unfold_w (p : Nat) (X : Nat → Nat → Nat → Nat → Nat → α) :
    Nat → Nat → Nat → Nat → Nat → Nat → α :=
  fun b ch a bk i j => X b ch a (bk * p + j) i

/-- `torch.flatten(patches, 2, 3)` (line 17): the `(h/p, w/p)` grid axes are
merged row-major; `wp = w / p`. -/
def flatten_grid (wp : Nat) (X : Nat → Nat → Nat → Nat → Nat → Nat → α) :
    Nat → Nat → Nat → Nat → Nat → α :=
  fun b ch n i j => X b ch (n / wp) (n % wp) i j

/-- `.permute(0, 2, 1, 3, 4)` (line 17): swap the channel and patch axes,
giving `(B, n, c, p, p)`. -/
def permute_02134 (X : Nat → Nat → Nat → Nat → Nat → α) :
    Nat → Nat → Nat → Nat → Nat → α :=
  fun b n ch i j => X b ch n i j

/-- Body of src/model/pytorch/ViT_model.py `patch` (lines 8-18) after the
assertions, on a rank-4 channels-first input. -/
def patch_body (p wp : Nat) (X : Nat → Nat → Nat → Nat → α) :
    Nat → Nat → Nat → Nat → Nat → α :=
  permute_02134 (flatten_grid wp (unfold_w p (unfold_h p X)))

/-- src/model/pytorch/ViT_model.py lines 8-18 `patch`: asserts that `p`
divides the height (line 14) and the width (line 15), in that order, then
unfolds.  Input is rank 4 (the rank-5 squeeze of lines 11-12 is applied by
callers passing rank-5 tensors). -/
def patch (h w p : Nat) (X : Nat → Nat → Nat → Nat → α) :
    Except PyErr (Nat → Nat → Nat → Nat → Nat → α) :=
  if h % p ≠ 0 then
    Except.error (PyErr.assertionError "Patch size must divide images height")
  else if w % p ≠ 0 then
    Except.error (PyErr.assertionError "Patch size must divide images width")
  else Except.ok (patch_body p (w / p) X)

end pt

namespace hvit

/-- src/hvit/tf/functions.py `patches` (lines 6-15) contains no divisibility
assertion.  Its failure paths are: `patch_size = 0`, where the Python
division `X.shape[1] // patch_size` of line 9 raises `ZeroDivisionError`;
and an empty specified reshape volume `(s//p)^2 * (p*p*c) = 0` (i.e.
`p > s` or `c = 0`), where `tf.image.extract_patches` returns an empty
tensor and `tf.reshape` cannot infer the `-1` dimension of line 15.  For
every other input — in particular whenever `0 < p <= s` with `p` NOT
dividing `s` — it returns a silently cropped patch sequence:
`extract_patches` with VALID padding drops the ragged border, and the
element counts of the reshape then always match. -/
def patches_checked (s p c : Nat) (X : Nat → Nat → Nat → Nat → Int) :
    Except PyErr (Nat → Nat → Nat → Int) :=
  if p = 0 then
    Except.error (PyErr.zeroDivisionError "integer division or modulo by zero")
  else if (s / p) ^ 2 * (p * p * c) = 0 then
    Except.error (PyErr.valueError
      "cannot infer the unspecified reshape dimension from an empty tensor")
  else Except.ok (patches s p c X)

end hvit

/-- The channels-first view of a channels-last image tensor:
`X.transpose` with the channel axis moved in front of the spatial axes. -/
def to_channels_first {α : Type} (X : Nat → Nat → Nat → Nat → α) :
    Nat → Nat → Nat → Nat → α :=
  fun b ch i j => X b i j ch

/-! ## PyTorch unflatten/unpatch and PatchEncoder (for C4 and C9) -/

namespace pt

variable {α : Type}

/-- src/model/pytorch/ViT_model.py lines 20-24, `unflatten`:
`torch.reshape(flattened, (bs, n, c, q, q))` with
`q = int(np.sqrt(pdim // c))`, `pdim` the input's last dimension;
channels-first, so index `(b, n, ch, u, v)` reads flat position
`(ch * q + u) * q + v` of patch `n`. -/
def unflatten (pdim c : Nat) (f : Nat → Nat → Nat → α) :
    Nat → Nat → Nat → Nat → Nat → α :=
  fun b n ch u v =>
    f b n ((ch * Nat.sqrt (pdim / c) + u) * Nat.sqrt (pdim / c) + v)

/-- `x.reshape(bs, e, e, ch, h, w)` on a `(bs, N, ch, h, w)` tensor
(src/model/pytorch/ViT_model.py line 33): the patch axis is split row-major
into the `(e, e)` grid. -/
def reshape_grid6 (e : Nat) (x : Nat → Nat → Nat → Nat → Nat → α) :
    Nat → Nat → Nat → Nat → Nat → Nat → α :=
  fun b a1 a2 ch i j => x b (a1 * e + a2) ch i j

/-- `torch.stack([torch.cat([patch for patch in grid[i]], dim=-2) ...])`
(line 33): for every batch element the grid rows are concatenated along the
height axis, giving `(bs, e, ch, h*e, w)`. -/
def cat_rows (h : Nat) (x : Nat → Nat → Nat → Nat → Nat → Nat → α) :
    Nat → Nat → Nat → Nat → Nat → α :=
  fun b a2 ch ii j => x b (ii / h) a2 ch (ii % h) j

/-- `torch.stack([torch.cat([patch for patch in pm[i]], dim=-1) ...])`
(line 34): the row strips are concatenated along the width axis, giving
`(bs, ch, h*e, w*e)`. -/
def cat_cols (w : Nat) (x : Nat → Nat → Nat → Nat → Nat → α) :
    Nat → Nat → Nat → Nat → α :=
  fun b ch ii jj => x b (jj / w) ch ii (jj % w)

/-- src/model/pytorch/ViT_model.py lines 26-35, `unpatch`, on a rank-5 input
of shape `(bs, N, ch, h, w)`: `elem_per_axis = int(np.sqrt(N))`, the grid is
reassembled and the result reshaped to `(bs, 1, ch, h*e, w*e)` (the final
`.reshape` only inserts the singleton axis).  The `ch == num_channels`
assertion of line 31 compares shapes and holds at every use below. -/
def unpatch (N c h w : Nat) (x : Nat → Nat → Nat → Nat → Nat → α) :
    Nat → Nat → Nat → Nat → Nat → α :=
  fun b _z ch ii jj =>
    cat_cols w (cat_rows h (reshape_grid6 (Nat.sqrt N) x)) b ch ii jj

/-- `torch.flatten(_, -3, -1)` on a `(B, n, c, p, p)` patch list
(src/model/pytorch/ViT_model.py lines 45, 87, 91): the channel and the two
spatial axes are merged row-major. -/
def flatten_last3 (p : Nat) (P : Nat → Nat → Nat → Nat → Nat → α) :
    Nat → Nat → Nat → α :=
  fun b n d => P b n (d / (p * p)) (d / p % p) (d % p)

/-- The attributes assigned by `PatchEncoder.__init__`
(src/model/pytorch/ViT_model.py lines 59-78), in program order, before the
`position_embedding` line is reached.  Neither `num_patches_final` nor
`patch_size_final` is assigned anywhere in the class. -/
def PatchEncoder_assigned_attrs : List String :=
  ["img_size", "patch_size", "num_channels", "num_patches",
    "projection_dim", "device", "positions", "linear"]

/-- src/model/pytorch/ViT_model.py lines 50-82, the raising behaviour of
`PatchEncoder.__init__`: the `positions` branch (line 65) reads
`patch_size[0]` and `patch_size[1]` (IndexError when `patch_size` has fewer
than two entries); then line 79 evaluates `self.num_patches_final` and
line 80 `self.patch_size_final`, attribute reads that fail because neither
name is ever assigned. -/
def PatchEncoder_init (img_size : Nat) (patch_size : List Nat)
    (num_channels : Nat) (device : String) : Except PyErr Unit :=
  if patch_size.length < 2 then
    Except.error (PyErr.indexError "list index out of range")
  else if "num_patches_final" ∈ PatchEncoder_assigned_attrs then
    if "patch_size_final" ∈ PatchEncoder_assigned_attrs then Except.ok ()
    else Except.error (PyErr.attributeError
      "PatchEncoder object has no attribute patch_size_final")
  else Except.error (PyErr.attributeError
    "PatchEncoder object has no attribute num_patches_final")

/-- src/model/pytorch/ViT_model.py lines 84-93, the body of
`PatchEncoder.forward` (as written, independently of the constructor):
it is a single `if self.patch_size[0] > self.patch_size[1]` block whose
branch patches with `patch_size[1]`, flattens, adds the positional
embedding, reconstructs the image via `unflatten`/`unpatch`, re-patches with
`patch_size[0]` (the rank-5 input is squeezed by `patch` itself, line 11),
flattens and applies `linear`.  There is no `else`, so the function returns
`None` when `patch_size[0] <= patch_size[1]`.  The `position_embedding` and
`linear` layers are opaque parameters (learned weights). -/
def PatchEncoder_forward (s ps0 ps1 c : Nat)
    (position_embedding : Nat → Nat → Int)
    (linear : (Nat → Nat → Nat → Int) → Nat → Nat → Nat → Int)
    (X : Nat → Nat → Nat → Nat → Int) :
    Except PyErr (Option (Nat → Nat → Nat → Int)) :=
  if ps0 > ps1 then
    match patch s s ps1 X with
    | Except.error e => Except.error e
    | Except.ok ptc =>
        let flat := flatten_last3 ps1 ptc
        let encoded : Nat → Nat → Nat → Int :=
          fun b n d => flat b n d + position_embedding n d
        let uf := unflatten (c * ps1 ^ 2) c encoded
        let up := unpatch ((s / ps1) ^ 2) c ps1 ps1 uf
        match patch s s ps0 (fun b ch ii jj => up b 0 ch ii jj) with
        | Except.error e => Except.error e
        | Except.ok ptc2 => Except.ok (some (linear (flatten_last3 ps0 ptc2)))
  else Except.ok none

end pt

/-! ## ViT_model constructor assertions (for C5)

`ViT_model.__init__` (src/model/pytorch/ViT_model.py lines 236-239) applies
`%` and `//` to its `patch_size` argument, whose annotated type and default
value (`patch_size:List[int]=[16,8]`) are a list.  Python evaluates
`patch_size % (2**depth)` before the assert can test anything, so the
operand's runtime type decides which exception is raised. -/

namespace pt

/-- A Python value that is either an `int` or a list of `int`s, the two
runtime types `patch_size` takes in this repository. -/
inductive PyVal where
  | int : Int → PyVal
  | list : List Int → PyVal
deriving DecidableEq, Repr

/-- Python `%`: defined for `int % int` (floor modulus, sign of the
divisor); `list % int` raises `TypeError`. -/
def pymod : PyVal → PyVal → Except PyErr PyVal
  | PyVal.int a, PyVal.int b => Except.ok (PyVal.int (a.fmod b))
  | _, _ => Except.error (PyErr.typeError "unsupported operand types for %")

/-- Python `//`: floor division on `int`s; `list // int` raises
`TypeError`. -/
def pyfloordiv : PyVal → PyVal → Except PyErr PyVal
  | PyVal.int a, PyVal.int b => Except.ok (PyVal.int (a.fdiv b))
  | _, _ => Except.error (PyErr.typeError "unsupported operand types for //")

/-- Python `>=` between an `int`/`list` value and an `int`. -/
def pyge : PyVal → PyVal → Except PyErr Bool
  | PyVal.int a, PyVal.int b => Except.ok (decide (b ≤ a))
  | _, _ => Except.error
      (PyErr.typeError "comparison not supported between list and int")

/-- src/model/pytorch/ViT_model.py lines 238-239, the two assert statements
of `ViT_model.__init__` in program order:
`assert patch_size%(2**(depth))==0` then
`assert patch_size//(2**(depth))>=4`, each raising `AssertionError` with its
message when the comparison is false, and propagating the `TypeError` of the
arithmetic when `patch_size` is a list. -/
def ViT_model_init_asserts (depth : Nat) (patch_size : PyVal) :
    Except PyErr Unit :=
  match pymod patch_size (PyVal.int (2 ^ depth)) with
  | Except.error e => Except.error e
  | Except.ok r1 =>
      if r1 = PyVal.int 0 then
        match pyfloordiv patch_size (PyVal.int (2 ^ depth)) with
        | Except.error e => Except.error e
        | Except.ok r2 =>
            match pyge r2 (PyVal.int 4) with
            | Except.error e => Except.error e
            | Except.ok true => Except.ok ()
            | Except.ok false => Except.error (PyErr.assertionError
                "Depth must be adjusted, final patch size is too small (lower than 4).")
      else Except.error (PyErr.assertionError
        "Depth must be adjusted, final patch size is incompatible.")

end pt

/-! ## ReAttention (for C7 and C10)

Attention tensors are rational-valued index functions (`Ten3` for
`(B, N, C)` tensors, `Ten4` for `(B, heads, N, head_dim)` /
`(B, heads, N, N)` tensors).  The learned framework layers appearing in
`ReAttention` — the q/k/v convolutions, the 1x1 re-attention convolution,
batch normalization, softmax, gelu and the output projection — are opaque
function-valued fields of the structure (their weights are irrelevant to the
dataflow claims proved here), while every reshape, transpose, scaling and
matrix product of the source is embedded concretely.  Both dropout layers
are the identity map at inference time, which is how they are embedded. -/

abbrev Ten3 : Type := Nat → Nat → Nat → ℚ

abbrev Ten4 : Type := Nat → Nat → Nat → Nat → ℚ

/-- Pointwise scaling of a rank-4 tensor (the `* self.scale` and
`* self.reatten_scale` of the source). -/
def scaleT4 (r : ℚ) (a : Ten4) : Ten4 :=
  fun b h i j => r * a b h i j

/-- `matmul(q, k, transpose_b=True)` / `torch.matmul(q, k.transpose(-2,-1))`
with contraction length `d` (the head dimension). -/
def matmul_nt (d : Nat) (q k : Ten4) : Ten4 :=
  fun b h i j => ∑ t ∈ Finset.range d, q b h i t * k b h j t

/-- `matmul(attn, v)` with contraction length `n` (the patch count). -/
def matmul_nn (n : Nat) (a v : Ten4) : Ten4 :=
  fun b h i t => ∑ j ∈ Finset.range n, a b h i j * v b h j t

/-- `reshape(transpose(_, [0,2,1,3]), [-1, N, C])` of a
`(B, heads, N, hd)` tensor: heads and head positions are re-merged into the
channel axis (`hd` is the head dimension). -/
def merge_heads (hd : Nat) (x : Ten4) : Ten3 :=
  fun b n d => x b (d / hd) n (d % hd)

/-- `reshape(_, [-1, N, heads, hd, 1])` then `transpose(_, [4,0,2,1,3])[0]`
(src/hvit/tf/functions.py lines 276-278), identically
`.reshape(B, N, 1, heads, hd).permute(2, 0, 3, 1, 4)[0]`
(src/model/pytorch/ViT_model.py lines 157-159): split the channel axis into
`(heads, hd)` and move heads in front. -/
def split_heads (hd : Nat) (x3 : Ten3) : Ten4 :=
  fun b hh n t => x3 b n (hh * hd + t)

namespace hvit

/-- src/hvit/tf/functions.py lines 225-262, the `ReAttention` layer.
`scale = qk_scale or head_dim ** -0.5` and
`reatten_scale = scale if transform_scale else 1.0` are kept as abstract
rational fields; the learned sub-layers are opaque function fields.
`gelu` is `tf.keras.activations.gelu`, applied pointwise. -/
structure ReAttention where
  dim : Nat
  num_patches : Nat
  num_channels : Nat
  num_heads : Nat
  scale : ℚ
  apply_transform : Bool
  reatten_scale : ℚ
  gelu : ℚ → ℚ
  qconv2d : Ten4 → Ten4
  kconv2d : Ten4 → Ten4
  vconv2d : Ten4 → Ten4
  reatten_matrix : Ten4 → Ten4
  var_norm : Ten4 → Ten4
  softmax : Ten4 → Ten4
  proj : Ten3 → Ten3

/-- `tf.map_fn(fn=lambda y: gelu(conv(y)), elems=x)` over the batch axis of a
`(B, n, q, q, c)` tensor (src/hvit/tf/functions.py lines 267-273). -/
def map_conv (g : ℚ → ℚ) (conv : Ten4 → Ten4)
    (x5 : Nat → Nat → Nat → Nat → Nat → ℚ) :
    Nat → Nat → Nat → Nat → Nat → ℚ :=
  fun b n u v ch => g (conv (fun n' u' v' ch' => x5 b n' u' v' ch') n u v ch)

/-- `tf.reshape(x, [-1, num_patches, dim])` of a `(B, n, q, q, c)` tensor
(line 275): the per-patch `(q, q, c)` block is flattened row-major. -/
def reshape_to_dim (q c : Nat) (x5 : Nat → Nat → Nat → Nat → Nat → ℚ) :
    Ten3 :=
  fun b n d => x5 b n (d / (q * c)) (d / c % q) (d % c)

/-- src/hvit/tf/functions.py lines 264-278, `create_queries`: `unflatten`,
the letter-selected convolution wrapped in gelu and mapped over the batch,
then the two reshapes and the transpose that split the heads.  `conv` is the
layer selected by the `letter` argument (`qconv2d`, `kconv2d` or
`vconv2d`). -/
def ReAttention.create_queries (L : ReAttention) (conv : Ten4 → Ten4)
    (x : Ten3) : Ten4 :=
  split_heads (L.dim / L.num_heads)
    (reshape_to_dim (Nat.sqrt (L.dim / L.num_channels)) L.num_channels
      (map_conv L.gelu conv (unflatten L.dim L.num_channels x)))

/-- src/hvit/tf/functions.py lines 280-294, `ReAttention.call`: q/k/v, the
scaled dot-product scores, softmax, dropout (identity at inference), the
conditional re-attention transform, then
`reshape(transpose(matmul(attn, v), [0,2,1,3]), [-1, N, C])`, projection and
dropout.  Returns `(x, attn_next)` with `attn_next` the final attention
map. -/
def ReAttention.call (L : ReAttention) (x : Ten3) : Ten3 × Ten4 :=
  let q := L.create_queries L.qconv2d x
  let k := L.create_queries L.kconv2d x
  let v := L.create_queries L.vconv2d x
  let attn := L.softmax (scaleT4 L.scale (matmul_nt (L.dim / L.num_heads) q k))
  let attn2 := if L.apply_transform
    then scaleT4 L.reatten_scale (L.var_norm (L.reatten_matrix attn))
    else attn
  (L.proj (merge_heads (L.dim / L.num_heads)
    (matmul_nn L.num_patches attn2 v)), attn2)

/-- Written from the claim: the re-attention transformation (1x1 convolution
`reatten_matrix`, then batch normalization `var_norm`, scaled by
`reatten_scale`) applied after softmax to the softmax-normalized scaled
dot-product attention scores of `x`. -/
def ReAttention.transformed_scores (L : ReAttention) (x : Ten3) : Ten4 :=
  scaleT4 L.reatten_scale (L.var_norm (L.reatten_matrix
    (L.softmax (scaleT4 L.scale (matmul_nt (L.dim / L.num_heads)
      (L.create_queries L.qconv2d x) (L.create_queries L.kconv2d x))))))

end hvit

namespace pt

/-- src/model/pytorch/ViT_model.py lines 118-153, the `ReAttention` module;
abstract scale fields and opaque learned sub-layers as in the TF version.
The PyTorch q/k/v convolutions are applied without a gelu. -/
structure ReAttention where
  num_heads : Nat
  num_channels : Nat
  scale : ℚ
  apply_transform : Bool
  reatten_scale : ℚ
  qconv2d : Ten4 → Ten4
  kconv2d : Ten4 → Ten4
  vconv2d : Ten4 → Ten4
  reatten_matrix : Ten4 → Ten4
  var_norm : Ten4 → Ten4
  softmax : Ten4 → Ten4
  proj : Ten3 → Ten3

/-- `torch.stack([conv(y) for y in x5], dim=0)` over the batch axis of a
`(B, n, c, q, q)` tensor (src/model/pytorch/ViT_model.py lines 157-159). -/
def conv_map (conv : Ten4 → Ten4)
    (x5 : Nat → Nat → Nat → Nat → Nat → ℚ) :
    Nat → Nat → Nat → Nat → Nat → ℚ :=
  fun b n ch u v => conv (fun n' ch' u' v' => x5 b n' ch' u' v') n ch u v

/-- `torch.flatten(_, -3, -1)` of a `(B, n, c, q, q)` tensor (lines
157-159): the per-patch `(c, q, q)` block is flattened row-major. -/
def flatten_ch (q : Nat) (x5 : Nat → Nat → Nat → Nat → Nat → ℚ) : Ten3 :=
  fun b n d => x5 b n (d / (q * q)) (d / q % q) (d % q)

/-- The q/k/v pipeline of src/model/pytorch/ViT_model.py lines 157-159:
`unflatten`, per-sample convolution, flatten, then the reshape/permute that
splits the heads (`C` is the channel count of `x`, read from its shape). -/
def ReAttention.create (L : ReAttention) (C : Nat) (conv : Ten4 → Ten4)
    (x : Ten3) : Ten4 :=
  split_heads (C / L.num_heads)
    (flatten_ch (Nat.sqrt (C / L.num_channels))
      (conv_map conv (unflatten C L.num_channels x)))

/-- src/model/pytorch/ViT_model.py lines 155-169, `ReAttention.forward`
(`N`, `C` are read from `x.shape`): q/k/v, scaled scores, softmax, dropout
(identity at inference); the local `attn_norm` is assigned only inside the
`if self.apply_transform` branch (line 164) yet read unconditionally on
lines 165-166, so with `apply_transform=False` the function raises
`UnboundLocalError` instead of returning. -/
def ReAttention.forward (L : ReAttention) (N C : Nat) (x : Ten3) :
    Except PyErr (Ten3 × Ten4) :=
  let v := L.create C L.vconv2d x
  let attn_soft := L.softmax (scaleT4 L.scale
    (matmul_nt (C / L.num_heads) (L.create C L.qconv2d x)
      (L.create C L.kconv2d x)))
  let attn_norm_local : Option Ten4 :=
    if L.apply_transform
      then some (scaleT4 L.reatten_scale (L.var_norm (L.reatten_matrix attn_soft)))
      else none
  match attn_norm_local with
  | none => Except.error (PyErr.unboundLocalError
      "local variable attn_norm referenced before assignment")
  | some attn_norm =>
      Except.ok (L.proj (merge_heads (C / L.num_heads)
        (matmul_nn N attn_norm v)), attn_norm)

/-- Written from the claim: the re-attention transformation applied after
softmax to the softmax-normalized scaled dot-product attention scores of
`x`, PyTorch version. -/
def ReAttention.transformed_scores (L : ReAttention) (C : Nat) (x : Ten3) :
    Ten4 :=
  scaleT4 L.reatten_scale (L.var_norm (L.reatten_matrix
    (L.softmax (scaleT4 L.scale (matmul_nt (C / L.num_heads)
      (L.create C L.qconv2d x) (L.create C L.kconv2d x))))))

end pt

/-- Concrete `hvit.ReAttention` instance used by witnesses. -/
def hvit_ReAttention_example : hvit.ReAttention :=
  { dim := 4, num_patches := 4, num_channels := 1, num_heads := 2,
    scale := 1, apply_transform := true, reatten_scale := 1,
    gelu := id, qconv2d := id, kconv2d := id, vconv2d := id,
    reatten_matrix := id, var_norm := id, softmax := id, proj := id }

/-- Concrete `pt.ReAttention` instance (with the transform enabled) used by
witnesses. -/
def pt_ReAttention_example : pt.ReAttention :=
  { num_heads := 2, num_channels := 1, scale := 1, apply_transform := true,
    reatten_scale := 1, qconv2d := id, kconv2d := id, vconv2d := id,
    reatten_matrix := id, var_norm := id, softmax := id, proj := id }

/-- Concrete `pt.ReAttention` instance with the transform disabled, used by
witnesses. -/
def pt_ReAttention_example_notransform : pt.ReAttention :=
  { num_heads := 2, num_channels := 1, scale := 1, apply_transform := false,
    reatten_scale := 1, qconv2d := id, kconv2d := id, vconv2d := id,
    reatten_matrix := id, var_norm := id, softmax := id, proj := id }

/-! ## Theorems -/

/-- Division helper: the quotient of `a * m + r` by `m` is `a` when `r < m`. -/
theorem nat_mul_add_div (a r m : Nat) (hm : 0 < m) (hr : r < m) :
    (a * m + r) / m = a := by
  rw [mul_comm a m, Nat.mul_add_div hm, Nat.div_eq_of_lt hr, Nat.add_zero]

/-- Remainder helper: the remainder of `a * m + r` by `m` is `r` when `r < m`. -/
theorem nat_mul_add_mod (a r m : Nat) (hr : r < m) :
    (a * m + r) % m = r := by
  rw [mul_comm a m, Nat.mul_add_mod, Nat.mod_eq_of_lt hr]

/-- C1: for a channels-last image tensor `X` of shape `(batch, s, s, c)` with
`p ∣ s`, composing `patches`, `unflatten` (with `c` channels) and `unpatch`
(with `c` channels) from src/hvit/tf/functions.py reconstructs `X` exactly:
entry `(b, 0, i, j, ch)` of the rank-5 result equals `X b i j ch`.
The intermediate tensors have shapes `(batch, (s/p)^2, p*p*c)` after
`patches`, `(batch, (s/p)^2, p, p, c)` after `unflatten` (its spatial extent
is `int(np.sqrt((p*p*c)/c)) = p`), and `(batch, 1, s, s, c)` after
`unpatch`. -/
theorem hvit_patches_unflatten_unpatch_roundtrip
    (s p c : Nat) (hp : 0 < p) (hc : 0 < c) (hdvd : p ∣ s)
    (X : Nat → Nat → Nat → Nat → Int) (b i j ch : Nat)
    (hi : i < s) (hj : j < s) (hch : ch < c) :
    hvit.unpatch ((s / p) ^ 2) p p c
      (hvit.unflatten (p * p * c) c (hvit.patches s p c X)) b 0 i j ch
      = X b i j ch := by
  obtain ⟨g, rfl⟩ := hdvd
  have hg : 0 < g := by
    rcases Nat.eq_zero_or_pos g with h0 | h0
    · subst h0; simp at hi
    · exact h0
  have hsp : p * g / p = g := Nat.mul_div_cancel_left g hp
  have hq : Nat.sqrt (p * p * c / c) = p := by
    rw [Nat.mul_div_cancel _ hc, ← pow_two, Nat.sqrt_eq']
  have hN : Nat.sqrt (g ^ 2) = g := Nat.sqrt_eq' g
  simp only [hvit.unpatch, hvit.concat_unstack1, hvit.concat_unstack2,
    hvit.split_stack_axis1, hvit.unflatten, hvit.patches,
    hvit.reshape_to_seq, hvit.extract_patches, hq, hN, hsp]
  have hip : i % p < p := Nat.mod_lt _ hp
  have hjp : j % p < p := Nat.mod_lt _ hp
  have hjg : j / p < g := by
    rw [Nat.div_lt_iff_lt_mul hp]
    exact lt_of_lt_of_le hj (le_of_eq (mul_comm p g))
  -- the flat position inside one patch
  have hd : (i % p * p + j % p) * c + ch
      = i % p * (p * c) + (j % p * c + ch) := by ring
  have hlt : j % p * c + ch < p * c := by
    calc j % p * c + ch < j % p * c + c := by exact Nat.add_lt_add_left hch _
    _ = (j % p + 1) * c := by ring
    _ ≤ p * c := Nat.mul_le_mul_right c (Nat.succ_le_of_lt hjp)
  have e3 : ((i % p * p + j % p) * c + ch) % c = ch :=
    nat_mul_add_mod _ _ _ hch
  have e2a : ((i % p * p + j % p) * c + ch) / c = i % p * p + j % p :=
    nat_mul_add_div _ _ _ hc hch
  have e1a : ((i % p * p + j % p) * c + ch) / (p * c) = i % p := by
    rw [hd]; exact nat_mul_add_div _ _ _ (Nat.mul_pos hp hc) hlt
  have en1 : (i / p * g + j / p) / g = i / p :=
    nat_mul_add_div _ _ _ hg hjg
  have en2 : (i / p * g + j / p) % g = j / p :=
    nat_mul_add_mod _ _ _ hjg
  rw [e3, e2a, e1a, en1, en2, nat_mul_add_mod _ _ _ hjp]
  have hi' : i / p * p + i % p = i := by
    rw [mul_comm, Nat.div_add_mod]
  have hj' : j / p * p + j % p = j := by
    rw [mul_comm, Nat.div_add_mod]
  rw [hi', hj']

/-- Witness for C1 at `s = 4`, `p = 2`, `c = 1`, on the tensor
`X b i j ch = b + 2*i + 3*j + 5*ch`, at index `(0, 3, 2, 0)`. -/
theorem hvit_patches_unflatten_unpatch_roundtrip_witness :
    hvit.unpatch ((4 / 2) ^ 2) 2 2 1
      (hvit.unflatten (2 * 2 * 1) 1
        (hvit.patches 4 2 1 (fun b i j ch => (b : Int) + 2 * i + 3 * j + 5 * ch)))
      0 0 3 2 0
      = (fun b i j ch => (b : Int) + 2 * i + 3 * j + 5 * ch) 0 3 2 0 :=
  hvit_patches_unflatten_unpatch_roundtrip 4 2 1 (by decide) (by decide)
    (by decide) _ 0 3 2 0 (by decide) (by decide) (by decide)

/-- Counterexample to C2: at the canonical configuration `img = 128`,
`p = 16`, `c = 1` (with `16 ∣ 128`) and an input of shape
`(2, 128, 128, 1)`, the `PatchEncoder.call` of src/model/tf/functions.py —
one of the two implementations the claim covers — does not return a tensor
of the claimed shape `(2, (128/16)^2, 1*16^2) = (2, 64, 256)`: its `Dense`
is applied to the rank-5 `(2, 64, 16, 16, 1)` output of the split/stack
`patches`, and broadcasting the `(64, 256)` positional embedding against
`(2, 64, 16, 16, 256)` fails (16 against 64), so the call raises a shape
error. -/
theorem mtf_PatchEncoder_call_shape_not_rank3 :
    mtf.PatchEncoder_call_shape 128 16 1 [2, 128, 128, 1] = none
    ∧ mtf.PatchEncoder_call_shape 128 16 1 [2, 128, 128, 1]
        ≠ some [2, (128 / 16) ^ 2, 1 * 16 ^ 2] := by
  decide

/-- C2 (amended): for every configuration `(img, p, c)` with `p ∣ img` and
every input of shape `(batch, img, img, c)`, the hvit
`PatchEncoder.call` (src/hvit/tf/functions.py) returns a tensor of shape
`(batch, (img/p)^2, projection_dim)`, `projection_dim` defaulting to
`c * p^2` when not supplied; the `PatchEncoder.call` of
src/model/tf/functions.py (which has no `projection_dim` parameter and
always uses `c * p^2`) never returns a rank-3 tensor of the claimed shape —
its `Dense` output stays rank 5, and the broadcast with the positional
embedding either fails or leaves a rank-5 tensor. -/
theorem hvit_PatchEncoder_call_shape_correct
    (img p c batch : Nat) (proj : Option Nat)
    (hp : 0 < p) (hc : 0 < c) (himg : 0 < img) (hdvd : p ∣ img) :
    ((hvit.PatchEncoder.init img p c proj).call_shape [batch, img, img, c]
      = some [batch, (img / p) ^ 2, proj.getD (c * p ^ 2)])
    ∧ (mtf.PatchEncoder_call_shape img p c [batch, img, img, c]).map
        List.length ≠ some 3 := by
  have hple : p ≤ img := Nat.le_of_dvd himg hdvd
  have hg : 0 < img / p := Nat.div_pos hple hp
  have hD : 0 < p * p * c := by positivity
  have hK : 0 < (img / p) ^ 2 * (p * p * c) := by positivity
  have hprod : [batch, img / p, img / p, p * p * c].prod
      = batch * ((img / p) ^ 2 * (p * p * c)) := by
    simp only [List.prod_cons, List.prod_nil, mul_one]
    ring
  have hmod : batch * ((img / p) ^ 2 * (p * p * c))
      % ((img / p) ^ 2 * (p * p * c)) = 0 := by
    simp [Nat.mul_mod_left]
  have hdivK : batch * ((img / p) ^ 2 * (p * p * c))
      / ((img / p) ^ 2 * (p * p * c)) = batch := by
    rw [mul_comm]
    exact Nat.mul_div_cancel_left batch hK
  have hmodp : img % p = 0 := Nat.mod_eq_zero_of_dvd hdvd
  have hdd : hvit.broadcastDim (c * p ^ 2) (c * p ^ 2) = some (c * p ^ 2) := by
    simp [hvit.broadcastDim]
  constructor
  · simp only [hvit.PatchEncoder.call_shape, hvit.PatchEncoder.init,
      hvit.patches_shape, hvit.extract_patches_shape, hvit.reshape_infer2,
      hprod]
    rw [if_neg (by positivity), if_pos hmod, hdivK]
    simp only [hvit.dense_shape, hvit.embedding_shape, hvit.broadcast_shapes,
      hvit.broadcastRev, hvit.broadcastDim, List.dropLast, List.reverse,
      List.append_nil]
    simp
  · cases hbd : hvit.broadcastDim p ((img / p) ^ 2) with
    | none =>
        simp [mtf.PatchEncoder_call_shape, mtf.patches_shape, hmodp,
          hvit.dense_shape, hvit.embedding_shape, hvit.broadcast_shapes,
          hvit.broadcastRev, List.dropLast, hbd, hdd]
    | some d =>
        simp [mtf.PatchEncoder_call_shape, mtf.patches_shape, hmodp,
          hvit.dense_shape, hvit.embedding_shape, hvit.broadcast_shapes,
          hvit.broadcastRev, List.dropLast, hbd, hdd]

/-- Witness for C2 (amended) at `img = 8`, `p = 4`, `c = 3`, `batch = 2`,
with `projection_dim` not supplied. -/
theorem hvit_PatchEncoder_call_shape_correct_witness :
    ((hvit.PatchEncoder.init 8 4 3 none).call_shape [2, 8, 8, 3]
      = some [2, (8 / 4) ^ 2, Option.getD none (3 * 4 ^ 2)])
    ∧ (mtf.PatchEncoder_call_shape 8 4 3 [2, 8, 8, 3]).map
        List.length ≠ some 3 :=
  hvit_PatchEncoder_call_shape_correct 8 4 3 2 none (by decide) (by decide)
    (by decide) (by decide)

/-- C6: constructing the hvit `Resampling` layer with
`resampling_type = "conv"` succeeds past its validation exactly when
`projection_dim` is `None` or a perfect square per channel, and a failing
check is an assertion failure.  The hypotheses keep the constructor away
from its earlier raising statements: at least two positive `patch_size`
entries (otherwise line 101/102 raises `ZeroDivisionError`/`IndexError`),
`patch_size[1]` not larger than `img_size` (otherwise `num_patches[1] = 0`
and the `pool_size` division of line 102 raises `ZeroDivisionError`), and a
positive channel count (otherwise the per-channel division raises
`ZeroDivisionError`). -/
theorem hvit_Resampling_conv_perfect_square_check
    (img c : Nat) (ps : List Nat) (pd : Option Nat)
    (hpos : ∀ x ∈ ps, 0 < x) (hps : 2 ≤ ps.length)
    (hnp : 0 < img / ps.getD 1 0) (hc : 0 < c) :
    (hvit.Resampling_init_check img ps c pd "conv" = Except.ok ()
      ↔ Option.all (fun n => is_perfect_square (n / c)) pd = true)
    ∧ (okb (hvit.Resampling_init_check img ps c pd "conv") = false →
        isAssertionError (hvit.Resampling_init_check img ps c pd "conv") = true) := by
  have h0 : 0 ∉ ps := fun hm => Nat.lt_irrefl 0 (hpos 0 hm)
  have hlen : ¬ ps.length < 2 := Nat.not_lt.mpr hps
  have hg1 : ¬ img / (ps[1]?.getD 0) = 0 := by
    have h := Nat.pos_iff_ne_zero.mp hnp
    rwa [List.getD_eq_getElem?_getD] at h
  have hsq0 : ¬ (img / ps.getD 1 0) ^ 2 = 0 :=
    pow_ne_zero 2 (Nat.pos_iff_ne_zero.mp hnp)
  have hc0 : ¬ c = 0 := Nat.pos_iff_ne_zero.mp hc
  cases pd with
  | none =>
      refine ⟨?_, ?_⟩ <;>
        simp [hvit.Resampling_init_check, h0, hlen, hg1, hsq0, hc0,
          Option.all, okb]
  | some n =>
      by_cases hsq : is_perfect_square (n / c) = true
      · refine ⟨?_, ?_⟩ <;>
          simp [hvit.Resampling_init_check, h0, hlen, hg1, hsq0, hc0,
            Option.all, hsq, okb]
      · rw [Bool.not_eq_true] at hsq
        refine ⟨?_, ?_⟩ <;>
          simp [hvit.Resampling_init_check, h0, hlen, hg1, hsq0, hc0,
            Option.all, hsq, okb, isAssertionError]

/-- Witness for C6 at `img = 128`, `patch_size = [8, 16]`, `c = 2`,
`projection_dim = 32` (and `32 / 2 = 16` is a perfect square). -/
theorem hvit_Resampling_conv_perfect_square_check_witness :
    (hvit.Resampling_init_check 128 [8, 16] 2 (some 32) "conv" = Except.ok ()
      ↔ Option.all (fun n => is_perfect_square (n / 2)) (some 32) = true)
    ∧ (okb (hvit.Resampling_init_check 128 [8, 16] 2 (some 32) "conv") = false →
        isAssertionError (hvit.Resampling_init_check 128 [8, 16] 2 (some 32) "conv") = true) :=
  hvit_Resampling_conv_perfect_square_check 128 2 [8, 16] (some 32)
    (by decide) (by decide) (by decide) (by decide)

/-- Counterexample to C3: with `s = 5` and `patch_size = 3` (which does not
divide 5), the hvit/tf `patches` implementation does not raise an assertion
failure — it returns a (cropped) patch sequence. -/
theorem hvit_patches_no_divisibility_assert :
    okb (hvit.patches_checked 5 3 1 (fun _ _ _ _ => (0 : Int))) = true := rfl

/-- C3 (amended): when `patch_size` does not divide the height or the width
— i.e. `h % p ≠ 0` or `w % p ≠ 0` — the patch implementations of
src/model/tf and src/model/pytorch raise an assertion failure instead of
returning, while the src/hvit/tf implementation performs no divisibility
check: for every `0 < q ≤ s` and `0 < c` (including every non-dividing `q`)
it returns a silently cropped patch sequence, failing only in the degenerate
cases `q = 0`, `q > s` or `c = 0`, and then with a division/reshape error,
not an assertion failure. -/
theorem patch_divisibility_asserts
    (h w p s q c : Nat) (X Y : Nat → Nat → Nat → Nat → Int)
    (Z : Nat → Nat → Nat → Nat → Int)
    (hnd : h % p ≠ 0 ∨ w % p ≠ 0)
    (hq : 0 < q) (hqs : q ≤ s) (hc : 0 < c) :
    isAssertionError (mtf.patch h w p X) = true
    ∧ isAssertionError (pt.patch h w p Y) = true
    ∧ okb (hvit.patches_checked s q c Z) = true := by
  have hq0 : ¬ q = 0 := Nat.pos_iff_ne_zero.mp hq
  have hvol : ¬ (s / q) ^ 2 * (q * q * c) = 0 := by
    have hsq : 0 < s / q := Nat.div_pos hqs hq
    have : 0 < (s / q) ^ 2 * (q * q * c) := by positivity
    exact Nat.pos_iff_ne_zero.mp this
  have hok : okb (hvit.patches_checked s q c Z) = true := by
    simp [hvit.patches_checked, hq0, hvol, okb]
  rcases hnd with h1 | h2
  · refine ⟨?_, ?_, hok⟩ <;> simp [mtf.patch, pt.patch, h1, isAssertionError]
  · by_cases h1 : h % p = 0 <;>
      refine ⟨?_, ?_, hok⟩ <;>
      simp [mtf.patch, pt.patch, h1, h2, isAssertionError]

/-- Witness for C3 (amended) at `h = w = 5`, `p = 3`, and the hvit
implementation at `s = 8`, `q = 2`, `c = 1`. -/
theorem patch_divisibility_asserts_witness :
    isAssertionError (mtf.patch 5 5 3 (fun _ _ _ _ => (0 : Int))) = true
    ∧ isAssertionError (pt.patch 5 5 3 (fun _ _ _ _ => (0 : Int))) = true
    ∧ okb (hvit.patches_checked 8 2 1 (fun _ _ _ _ => (0 : Int))) = true :=
  patch_divisibility_asserts 5 5 3 8 2 1 _ _ _ (Or.inl (by decide))
    (by decide) (by decide) (by decide)

/-- C8: on a channels-last image of shape `(batch, s, s, c)` with `p ∣ s`,
the TensorFlow patch function (src/model/tf/ViT_model.py `patch`) and the
PyTorch patch function (src/model/pytorch/ViT_model.py `patch`) applied to
the channels-first transpose compute the same patch decomposition: both
succeed, and the TF entry `(b, n, i, j, ch)` of the `(batch, n, p, p, c)`
output equals the PyTorch entry `(b, n, ch, i, j)` of the
`(batch, n, c, p, p)` output. -/
theorem tf_pytorch_patch_agree
    (s p : Nat) (X : Nat → Nat → Nat → Nat → Int)
    (b n i j ch : Nat) (hdvd : s % p = 0) :
    mtf.patch s s p X = Except.ok (mtf.patch_body p (s / p) X)
    ∧ pt.patch s s p (to_channels_first X)
        = Except.ok (pt.patch_body p (s / p) (to_channels_first X))
    ∧ mtf.patch_body p (s / p) X b n i j ch
        = pt.patch_body p (s / p) (to_channels_first X) b n ch i j := by
  refine ⟨?_, ?_, ?_⟩
  · simp [mtf.patch, hdvd]
  · simp [pt.patch, hdvd]
  · rfl

/-- Witness for C8 at `s = 4`, `p = 2`, on `X b i j ch = b + 2*i + 3*j + 5*ch`,
at index `(0, 3, 1, 0, 0)`. -/
theorem tf_pytorch_patch_agree_witness :
    mtf.patch 4 4 2 (fun b i j ch => (b : Int) + 2 * i + 3 * j + 5 * ch)
      = Except.ok (mtf.patch_body 2 (4 / 2)
          (fun b i j ch => (b : Int) + 2 * i + 3 * j + 5 * ch))
    ∧ pt.patch 4 4 2
        (to_channels_first (fun b i j ch => (b : Int) + 2 * i + 3 * j + 5 * ch))
        = Except.ok (pt.patch_body 2 (4 / 2)
            (to_channels_first (fun b i j ch => (b : Int) + 2 * i + 3 * j + 5 * ch)))
    ∧ mtf.patch_body 2 (4 / 2)
        (fun b i j ch => (b : Int) + 2 * i + 3 * j + 5 * ch) 0 3 1 0 0
        = pt.patch_body 2 (4 / 2)
            (to_channels_first (fun b i j ch => (b : Int) + 2 * i + 3 * j + 5 * ch))
            0 3 0 1 0 :=
  tf_pytorch_patch_agree 4 2 _ 0 3 1 0 0 (by decide)

/-- C9: constructing the PyTorch `PatchEncoder` always fails; with a
well-formed `patch_size` list (at least two entries) the failure is the
`AttributeError` on the unassigned `num_patches_final`. -/
theorem pt_PatchEncoder_never_constructs
    (img c : Nat) (ps : List Nat) (dev : String) :
    okb (pt.PatchEncoder_init img ps c dev) = false
    ∧ (2 ≤ ps.length →
        pt.PatchEncoder_init img ps c dev = Except.error (PyErr.attributeError
          "PatchEncoder object has no attribute num_patches_final")) := by
  have hm : "num_patches_final" ∉ pt.PatchEncoder_assigned_attrs := by
    simp [pt.PatchEncoder_assigned_attrs]
  by_cases hl : ps.length < 2
  · constructor
    · simp [pt.PatchEncoder_init, hl, okb]
    · intro h2
      exact absurd hl (Nat.not_lt.mpr h2)
  · constructor
    · simp [pt.PatchEncoder_init, hl, hm, okb]
    · intro _
      simp [pt.PatchEncoder_init, hl, hm]

/-- Witness for C9 at the default-like arguments
`(128, [16, 8], 1, "cuda:0")`. -/
theorem pt_PatchEncoder_never_constructs_witness :
    okb (pt.PatchEncoder_init 128 [16, 8] 1 "cuda:0") = false
    ∧ (2 ≤ ([16, 8] : List Nat).length →
        pt.PatchEncoder_init 128 [16, 8] 1 "cuda:0"
          = Except.error (PyErr.attributeError
              "PatchEncoder object has no attribute num_patches_final")) :=
  pt_PatchEncoder_never_constructs 128 1 [16, 8] "cuda:0"

/-- Counterexample to C4: with `patch_size = [8, 16]` (so
`patch_size[0] <= patch_size[1]`, a configuration the claim includes), the
PyTorch `PatchEncoder.forward` body returns `None`, not a tensor. -/
theorem pt_PatchEncoder_forward_returns_none :
    pt.PatchEncoder_forward 16 8 16 1 (fun _ _ => 0) id (fun _ _ _ _ => 0)
      = Except.ok none := rfl

/-- C4 (amended): the PyTorch `PatchEncoder.forward` body returns a tensor
exactly in its downsampling branch: when `patch_size[0] > patch_size[1]` and
both patch sizes divide the image size it returns a tensor, and when
`patch_size[0] <= patch_size[1]` it falls off the end of the function and
returns `None`. -/
theorem pt_PatchEncoder_forward_tensor_iff_downsampling
    (s ps0 ps1 c : Nat)
    (position_embedding : Nat → Nat → Int)
    (linear : (Nat → Nat → Nat → Int) → Nat → Nat → Nat → Int)
    (X : Nat → Nat → Nat → Nat → Int)
    (hgt : ps1 < ps0) (h1 : s % ps1 = 0) (h0 : s % ps0 = 0) :
    Except.map Option.isSome
      (pt.PatchEncoder_forward s ps0 ps1 c position_embedding linear X)
      = Except.ok true := by
  simp only [pt.PatchEncoder_forward, pt.patch, h1, h0]
  rw [if_pos hgt]
  simp [Except.map]

/-- Witness for C4 (amended) at `s = 16`, `patch_size = [16, 8]`, `c = 1`. -/
theorem pt_PatchEncoder_forward_tensor_iff_downsampling_witness :
    Except.map Option.isSome
      (pt.PatchEncoder_forward 16 16 8 1 (fun _ _ => 0) id (fun _ _ _ _ => 0))
      = Except.ok true :=
  pt_PatchEncoder_forward_tensor_iff_downsampling 16 16 8 1 _ _ _
    (by decide) (by decide) (by decide)

/-- Counterexample to C5: constructing `ViT_model` with the annotated
(default) list `patch_size = [16, 8]` and the incompatible `depth = 5`
raises `TypeError` from `patch_size % (2**depth)`, not an
`AssertionError`. -/
theorem pt_ViT_model_list_patch_size_type_error :
    pt.ViT_model_init_asserts 5 (pt.PyVal.list [16, 8])
      = Except.error (PyErr.typeError "unsupported operand types for %")
    ∧ isAssertionError (pt.ViT_model_init_asserts 5 (pt.PyVal.list [16, 8]))
      = false :=
  ⟨rfl, rfl⟩

/-- C5 (amended): when `patch_size` is an integer `n` (as the assert
expressions themselves assume), an incompatible depth — `2^depth` not
dividing `n`, or `n // 2^depth < 4` — raises an `AssertionError`; with the
annotated list type the same expressions raise `TypeError` instead. -/
theorem pt_ViT_model_depth_asserts (depth : Nat) (n : Int)
    (h : ¬ (n.fmod (2 ^ depth) = 0 ∧ 4 ≤ n.fdiv (2 ^ depth))) :
    isAssertionError (pt.ViT_model_init_asserts depth (pt.PyVal.int n))
      = true := by
  by_cases he : n.fmod (2 ^ depth) = 0
  · have hlt : ¬ 4 ≤ n.fdiv (2 ^ depth) := fun hge => h ⟨he, hge⟩
    simp [pt.ViT_model_init_asserts, pt.pymod, pt.pyfloordiv, pt.pyge, he,
      hlt, isAssertionError]
  · simp [pt.ViT_model_init_asserts, pt.pymod, pt.pyfloordiv, pt.pyge, he,
      isAssertionError]

/-- Witness for C5 (amended) at `depth = 3`, `patch_size = 16`
(`16 // 8 = 2 < 4`). -/
theorem pt_ViT_model_depth_asserts_witness :
    isAssertionError (pt.ViT_model_init_asserts 3 (pt.PyVal.int 16)) = true :=
  pt_ViT_model_depth_asserts 3 16 (by decide)

/-- C7: with `apply_transform = True`, in both the TF and the PyTorch
`ReAttention`, the returned attention map is the re-attention transform
(1x1 convolution, then batch normalization, scaled by `reatten_scale`)
applied to the softmax output, and it is this transformed map — not the raw
softmax output — that is multiplied with the values to produce the layer
output. -/
theorem reattention_transform_after_softmax
    (L : hvit.ReAttention) (M : pt.ReAttention) (N C : Nat) (x y : Ten3)
    (hL : L.apply_transform = true) (hM : M.apply_transform = true) :
    (L.call x).2 = L.transformed_scores x
    ∧ (L.call x).1 = L.proj (merge_heads (L.dim / L.num_heads)
        (matmul_nn L.num_patches ((L.call x).2)
          (L.create_queries L.vconv2d x)))
    ∧ M.forward N C y = Except.ok
        (M.proj (merge_heads (C / M.num_heads)
          (matmul_nn N (M.transformed_scores C y) (M.create C M.vconv2d y))),
         M.transformed_scores C y) := by
  refine ⟨?_, ?_, ?_⟩ <;>
    simp [hvit.ReAttention.call, pt.ReAttention.forward,
      hvit.ReAttention.transformed_scores, pt.ReAttention.transformed_scores,
      hL, hM]

/-- Witness for C7 on the concrete example layers and the zero input. -/
theorem reattention_transform_after_softmax_witness :
    ((hvit_ReAttention_example.call (fun _ _ _ => 0)).2
        = hvit_ReAttention_example.transformed_scores (fun _ _ _ => 0))
    ∧ ((hvit_ReAttention_example.call (fun _ _ _ => 0)).1
        = hvit_ReAttention_example.proj (merge_heads
            (hvit_ReAttention_example.dim / hvit_ReAttention_example.num_heads)
            (matmul_nn hvit_ReAttention_example.num_patches
              ((hvit_ReAttention_example.call (fun _ _ _ => 0)).2)
              (hvit_ReAttention_example.create_queries
                hvit_ReAttention_example.vconv2d (fun _ _ _ => 0)))))
    ∧ pt_ReAttention_example.forward 4 4 (fun _ _ _ => 0) = Except.ok
        (pt_ReAttention_example.proj (merge_heads
          (4 / pt_ReAttention_example.num_heads)
          (matmul_nn 4 (pt_ReAttention_example.transformed_scores 4 (fun _ _ _ => 0))
            (pt_ReAttention_example.create 4 pt_ReAttention_example.vconv2d
              (fun _ _ _ => 0)))),
         pt_ReAttention_example.transformed_scores 4 (fun _ _ _ => 0)) :=
  reattention_transform_after_softmax hvit_ReAttention_example
    pt_ReAttention_example 4 4 (fun _ _ _ => 0) (fun _ _ _ => 0) rfl rfl

/-- C10: the PyTorch `ReAttention.forward` returns normally exactly when
`apply_transform` is `True`; with `apply_transform=False` it raises
`UnboundLocalError` on the unassigned local `attn_norm`. -/
theorem pt_ReAttention_forward_unbound_local
    (M : pt.ReAttention) (N C : Nat) (y : Ten3) :
    okb (M.forward N C y) = M.apply_transform
    ∧ (M.apply_transform = false → M.forward N C y
        = Except.error (PyErr.unboundLocalError
            "local variable attn_norm referenced before assignment")) := by
  by_cases h : M.apply_transform
  · refine ⟨?_, ?_⟩ <;> simp [pt.ReAttention.forward, h, okb]
  · rw [Bool.not_eq_true] at h
    refine ⟨?_, ?_⟩ <;> simp [pt.ReAttention.forward, h, okb]

/-- Witness for C10 on the concrete layer with `apply_transform=False` and
the zero input. -/
theorem pt_ReAttention_forward_unbound_local_witness :
    okb (pt_ReAttention_example_notransform.forward 4 4 (fun _ _ _ => 0))
      = pt_ReAttention_example_notransform.apply_transform
    ∧ (pt_ReAttention_example_notransform.apply_transform = false →
        pt_ReAttention_example_notransform.forward 4 4 (fun _ _ _ => 0)
          = Except.error (PyErr.unboundLocalError
              "local variable attn_norm referenced before assignment")) :=
  pt_ReAttention_forward_unbound_local pt_ReAttention_example_notransform
    4 4 (fun _ _ _ => 0)
